import Mathlib

/-!
Verification of the minimal-think-mcp session store (src/index.js).

This file gives a shallow embedding of the parts of the server that the
specification's claims speak about: the think (append) handler with its
relationship validation and recording, session load/save with their
error handling, the view_session handler, the retention sweeper, the
lexical relevance scorer, and the builds_on reasoning-chain builder.

Modelling conventions:
  - JavaScript strings are Lean `String`; optional arguments are `Option`.
  - JavaScript truthiness of an optional string (null and the empty
    string are falsy) is `truthyOpt`.
  - Timestamps are natural numbers (milliseconds since the epoch;
    comparison of ISO-8601 timestamps agrees with numeric order).
  - Filesystem effects are made explicit: a read yields a `ReadOutcome`,
    a write either succeeds or fails (`writeFails`), and — exactly as in
    the source — `saveSession` catches a failed write and reports
    nothing to its caller.
-/

namespace MinimalThink

/-- JS truthiness of an optional string: null/undefined and "" are falsy. -/
def truthyOpt : Option String → Bool
  | none => false
  | some s => !(s == "")

/-- JS `x || d` for an optional string argument (absent or "" falls back to d). -/
def strOrDefault (o : Option String) (d : String) : String :=
  match o with
  | none => d
  | some s => if s == "" then d else s

/-- The first character list is a leading segment of the second. -/
def hasPre : List Char → List Char → Bool
  | [], _ => true
  | _ :: _, [] => false
  | a :: as, b :: bs => a == b && hasPre as bs

/-- JS String.prototype.includes on character lists: needle occurs,
contiguously, somewhere in the haystack. -/
def hasSub (needle : List Char) : List Char → Bool
  | [] => needle.isEmpty
  | b :: bs => hasPre needle (b :: bs) || hasSub needle bs

/-- JS hay.includes(needle). -/
def strIncludes (hay needle : String) : Bool := hasSub needle.data hay.data

/-- Worker for `splitWs`: walks the characters, collecting the current token
in acc; a whitespace character ends the current token unless we are already
inside a whitespace run (prevWs). -/
def splitWsGo : List Char → List Char → Bool → List (List Char)
  | [], acc, _ => [acc.reverse]
  | c :: rest, acc, prevWs =>
    if c.isWhitespace then
      if prevWs then splitWsGo rest [] true
      else acc.reverse :: splitWsGo rest [] true
    else splitWsGo rest (c :: acc) false

/-- JS query.split(whitespace-run regex): splits on maximal runs of whitespace,
keeping a leading (resp. trailing) empty token when the string starts
(resp. ends) with whitespace, and yielding one empty token for "". -/
def splitWs (s : String) : List (List Char) := splitWsGo s.data [] false

/-- One relationship record, a JS object { thought_id, relationship_type }. -/
structure Rel where
  thought_id : String
  relationship_type : String
deriving DecidableEq

/-- A stored thought entry (the thoughtObj built by the think handler,
src/index.js lines 166-176). -/
structure Thought where
  id : String
  content : String
  mode : String
  tags : List String
  timestamp : Nat
  relates_to : Option String
  relationship_type : Option String
  relationships_in : List Rel
  relationships_out : List Rel
deriving DecidableEq

/-- thoughts.find(t => t.id === tid). -/
def findThought (thoughts : List Thought) (tid : String) : Option Thought :=
  thoughts.find? (fun t => t.id == tid)

/-- Mutating the object returned by Array.prototype.find updates exactly the
first matching element of the underlying array, in place. -/
def updateFirst (p : Thought → Bool) (f : Thought → Thought) : List Thought → List Thought
  | [] => []
  | t :: ts => if p t then f t :: ts else t :: updateFirst p f ts

/-- What the filesystem yields when the session record is read: the record may
be missing, the read of an existing record may fail, the record may hold
unparseable data, or it parses to a thought list. -/
inductive ReadOutcome
  | notFound
  | readError (msg : String)
  | corrupt (raw : String)
  | ok (thoughts : List Thought)
deriving DecidableEq

/-- loadSession, src/index.js lines 39-48: the try/catch wraps both the read
and the parse, and the catch-all returns the empty array, so every failure
(missing record, read error, corrupt data) comes back as []. The return type
has no error channel at all. -/
def loadSession : ReadOutcome → List Thought
  | .ok thoughts => thoughts
  | _ => []

/-- The durable state relevant to one think call: the persisted record of the
session being appended to, plus whether the underlying write would fail. -/
structure ThinkWorld where
  persisted : List Thought
  writeFails : Bool
deriving DecidableEq

/-- saveSession, src/index.js lines 51-58: the write is attempted inside a
try/catch whose catch only logs; a failed write leaves the record as it was
and the caller is told nothing (the function returns normally either way). -/
def saveSession (w : ThinkWorld) (thoughts : List Thought) : ThinkWorld :=
  if w.writeFails then w else { w with persisted := thoughts }

/-- The three distinguished validation errors of the think handler
(src/index.js lines 181-193). -/
inductive ThinkError
  | selfReference
  | notFound (thought_id : String)
  | futureReference
deriving DecidableEq

/-- What the think handler hands back to the transport: one of the error
JSON objects, or the success responseJson (projected to the fields the
claims mention). -/
inductive ThinkResponse
  | err (e : ThinkError)
  | success (thoughtId : String) (thoughtCount : Nat)
deriving DecidableEq

/-- The pure core of the think handler, src/index.js lines 164-202: build
thoughtObj, validate and record the relationship when both relates_to and
relationship_type are truthy, and push the new thought. Returns the list
that will be passed to saveSession together with the new thought. -/
def thinkCore (thoughts : List Thought) (reasoning : String) (mode : Option String)
    (tags : Option (List String)) (relates_to relationship_type : Option String)
    (thoughtId : String) (timestamp : Nat) :
    Except ThinkError (List Thought × Thought) :=
  let thoughtObj : Thought :=
    { id := thoughtId
      content := reasoning
      mode := strOrDefault mode "linear"
      tags := tags.getD []
      timestamp := timestamp
      relates_to := none
      relationship_type := none
      relationships_in := []
      relationships_out := [] }
  if truthyOpt relates_to && truthyOpt relationship_type then
    let r := relates_to.getD ""
    let rt := relationship_type.getD ""
    if r = thoughtId then .error .selfReference
    else
      match findThought thoughts r with
      | none => .error (.notFound r)
      | some referencedThought =>
        if timestamp < referencedThought.timestamp then .error .futureReference
        else
          let thoughts1 := updateFirst (fun t => t.id == r)
            (fun t => { t with relationships_in := t.relationships_in ++ [⟨thoughtId, rt⟩] })
            thoughts
          let newTh : Thought :=
            { thoughtObj with
                relationships_out := [⟨r, rt⟩]
                relates_to := some r
                relationship_type := some rt }
          .ok (thoughts1 ++ [newTh], newTh)
  else .ok (thoughts ++ [thoughtObj], thoughtObj)

/-- The think handler around the core, src/index.js lines 178-292: a
validation error returns at once (before any save); otherwise the updated
list is saved (a failed save is swallowed by saveSession) and the success
responseJson is returned with thoughtCount = thoughts.length after the push. -/
def thinkHandler (w : ThinkWorld) (reasoning : String) (mode : Option String)
    (tags : Option (List String)) (relates_to relationship_type : Option String)
    (thoughtId : String) (timestamp : Nat) : ThinkWorld × ThinkResponse :=
  match thinkCore w.persisted reasoning mode tags relates_to relationship_type thoughtId timestamp with
  | .error e => (w, .err e)
  | .ok (thoughts2, newTh) => (saveSession w thoughts2, .success newTh.id thoughts2.length)

/-- Result of the view_session handler, src/index.js lines 382-441. -/
inductive ViewResult
  | errNoSession
  | ok (sessionId : String) (thoughts : List Thought) (count : Nat) (usingDefaultSession : Bool)
deriving DecidableEq

/-- view_session, src/index.js lines 382-441: a falsy sessionId falls back to
the default pointer; with neither, the no-session error is returned; otherwise
the session is loaded (loadSession never throws) and reported with its count. -/
def view_session (sessionId : Option String) (defaultSessionId : Option String)
    (store : String → ReadOutcome) : ViewResult :=
  if truthyOpt sessionId then
    let s := sessionId.getD ""
    .ok s (loadSession (store s)) (loadSession (store s)).length false
  else if truthyOpt defaultSessionId then
    let d := defaultSessionId.getD ""
    .ok d (loadSession (store d)) (loadSession (store d)).length true
  else .errNoSession

/-- The session directory as the sweeper sees it: the stored files with their
last-modified times (milliseconds since epoch), plus the default pointer. -/
structure SweepFS where
  files : List (String × Nat)
  defaultSessionId : Option String
deriving DecidableEq

def msPerDay : Nat := 86400000

/-- JS s.endsWith(suffix). -/
def strEndsWith (s suffix : String) : Bool :=
  hasPre suffix.data.reverse s.data.reverse

/-- (now - mtime) / msPerDay > maxAgeDays, written without division. -/
def fileIsOld (now mtime maxAgeDays : Nat) : Bool :=
  maxAgeDays * msPerDay < now - mtime

/-- cleanupOldSessions, src/index.js lines 84-110: every .json file other than
defaultSession.json whose age exceeds maxAgeDays is unlinked and counted.
The default pointer record is skipped by the filename test and is never
updated or cleared anywhere in the function. -/
def cleanupOldSessions (fs : SweepFS) (now : Nat) (maxAgeDays : Nat) : SweepFS × Nat :=
  let deletable := fun (f : String × Nat) =>
    strEndsWith f.1 ".json" && f.1 != "defaultSession.json" && fileIsOld now f.2 maxAgeDays
  ({ fs with files := fs.files.filter (fun f => !(deletable f)) },
   (fs.files.filter deletable).length)

/-- calculateRelevanceScore, src/index.js lines 696-733. queryLower is the
already-lowercased query (the caller lowercases it once). -/
def calculateRelevanceScore (thought : Thought) (queryLower : String) : Nat :=
  let content := thought.content.toLower
  let score1 := if strIncludes content queryLower then 10 else 0
  let queryWords := splitWs queryLower
  let score2 := queryWords.foldl (fun sc w => if hasSub w content.data then sc + 2 else sc) score1
  let score3 := thought.tags.foldl
    (fun sc tag => if strIncludes tag.toLower queryLower then sc + 5 else sc) score2
  let score4 :=
    if !(thought.mode == "") && strIncludes thought.mode.toLower queryLower then score3 + 3
    else score3
  if truthyOpt thought.relates_to || truthyOpt thought.relationship_type then score4 + 1
  else score4

/-- The relevance score exactly as the specification words it: 10 for the full
query in the content, 2 per query word in the content, 5 per tag containing
the query, 3 if the mode contains the query, 1 if the thought carries any
relationship metadata. Reference definition for the refinement claim. -/
def specRelevanceScore (thought : Thought) (queryLower : String) : Nat :=
  (if strIncludes thought.content.toLower queryLower then 10 else 0)
    + 2 * (splitWs queryLower).countP (fun w => hasSub w thought.content.toLower.data)
    + 5 * thought.tags.countP (fun tag => strIncludes tag.toLower queryLower)
    + (if strIncludes thought.mode.toLower queryLower then 3 else 0)
    + (if thought.relates_to.isSome || thought.relationship_type.isSome then 1 else 0)

/-- content.substring(0, n) + (content.length > n ? "..." : ""). -/
def contentPreview (s : String) (n : Nat) : String :=
  s.take n ++ (if n < s.length then "..." else "")

/-- One entry of a reasoning chain (src/index.js lines 751-757); the spread at
lines 772-776 may later switch on the truncation marker and note. -/
structure ChainEntry where
  id : String
  content_preview : String
  mode : String
  timestamp : Nat
  relationship_type : Option String
  truncated : Bool := false
  note : Option String := none
deriving DecidableEq

/-- What buildReasoningChain returns (src/index.js lines 777-788). -/
structure ChainResult where
  chain : List ChainEntry
  total_length : Nat
  truncated : Bool
deriving DecidableEq

/-- The chain entry recorded for one visited thought. -/
def entryOf (t : Thought) : ChainEntry :=
  { id := t.id
    content_preview := contentPreview t.content 120
    mode := t.mode
    timestamp := t.timestamp
    relationship_type := t.relationship_type }

/-- The walk loop of buildReasoningChain, src/index.js lines 744-765. The JS
loop guard is currentId && !visited.has(currentId) && chain.length < 20; the
chain grows by exactly one entry per iteration, so the remaining capacity
20 - chain.length is the fuel. Entries are unshifted, so the resulting list
is oldest first. -/
def walkChain (thoughts : List Thought) : Nat → List String → String → List ChainEntry
  | 0, _, _ => []
  | fuel + 1, visited, currentId =>
    if currentId == "" then []
    else if visited.contains currentId then []
    else
      match findThought thoughts currentId with
      | none => []
      | some thought =>
        if thought.relationship_type == some "builds_on" && truthyOpt thought.relates_to then
          walkChain thoughts fuel (currentId :: visited) (thought.relates_to.getD "")
            ++ [entryOf thought]
        else [entryOf thought]

def maxChainLength : Nat := 7

/-- The truncation note attached to the retained head entry. -/
def noteString (n : Nat) : String :=
  "... (" ++ toString n ++ " earlier thoughts in chain)"

/-- The working-memory cap of buildReasoningChain, src/index.js lines 767-788:
a chain longer than 7 keeps only its last 7 entries, the retained head is
marked truncated with a note counting the omitted entries, and total_length
reports the full accumulated length. (The empty match arm is unreachable:
a list longer than 7 cannot drop to nothing when 7 entries are kept.) -/
def capChain (chain : List ChainEntry) : ChainResult :=
  if maxChainLength < chain.length then
    match chain.drop (chain.length - maxChainLength) with
    | [] => { chain := [], total_length := chain.length, truncated := true }
    | hd :: tl =>
      { chain := { hd with truncated := true
                           note := some (noteString (chain.length - maxChainLength)) } :: tl
        total_length := chain.length
        truncated := true }
  else { chain := chain, total_length := chain.length, truncated := false }

/-- buildReasoningChain, src/index.js lines 738-789. -/
def buildReasoningChain (thoughtId : String) (thoughts : List Thought) : ChainResult :=
  capChain (walkChain thoughts 20 [] thoughtId)

/-- A small stand-alone thought used as concrete session content in examples. -/
def exA : Thought :=
  { id := "A", content := "alpha", mode := "linear", tags := [], timestamp := 5
    relates_to := none, relationship_type := none
    relationships_in := [], relationships_out := [] }

/-- The i-th thought of a linear builds_on chain: t1 is the root, and t(i)
builds on t(i-1) for i > 1. -/
def mkChainT (i : Nat) : Thought :=
  { id := "t" ++ toString i
    content := "c" ++ toString i
    mode := "linear"
    tags := []
    timestamp := i
    relates_to := if i = 1 then none else some ("t" ++ toString (i - 1))
    relationship_type := if i = 1 then none else some "builds_on"
    relationships_in := []
    relationships_out := [] }

/-- A builds_on chain of exactly 10 linked thoughts t1 → ... → t10. -/
def chain10 : List Thought := (List.range 10).map (fun i => mkChainT (i + 1))

/-- A two-thought relates_to cycle: A builds on B and B builds on A. -/
def cycleThoughts : List Thought :=
  [ { id := "A", content := "a", mode := "linear", tags := [], timestamp := 1
      relates_to := some "B", relationship_type := some "builds_on"
      relationships_in := [], relationships_out := [] }
  , { id := "B", content := "b", mode := "linear", tags := [], timestamp := 2
      relates_to := some "A", relationship_type := some "builds_on"
      relationships_in := [], relationships_out := [] } ]

end MinimalThink

namespace MinimalThink

/-- An optional string that is not literally some "" is truthy exactly when
it is present. -/
theorem truthyOpt_eq_isSome (o : Option String) (h : o ≠ some "") :
    truthyOpt o = o.isSome := by
  cases o with
  | none => rfl
  | some s =>
    have hs : s ≠ "" := fun e => h (by rw [e])
    simp [truthyOpt, hs]

/-- The walk of the chain builder produces at most as many entries as it has
fuel: each loop iteration consumes one unit of the remaining capacity
20 - chain.length and contributes exactly one entry. -/
theorem walkChain_length_le (thoughts : List Thought) :
    ∀ (fuel : Nat) (visited : List String) (currentId : String),
      (walkChain thoughts fuel visited currentId).length ≤ fuel := by
  intro fuel
  induction fuel with
  | zero => intro _ _; simp [walkChain]
  | succ n ih =>
    intro visited currentId
    rw [walkChain]
    split
    · simp
    · split
      · simp
      · split
        · simp
        · split
          · rw [List.length_append]
            simp only [List.length_cons, List.length_nil]
            exact Nat.succ_le_succ (ih _ _)
          · simp

/-- capChain always reports the full accumulated length as total_length. -/
theorem capChain_total_length (c : List ChainEntry) :
    (capChain c).total_length = c.length := by
  unfold capChain
  split
  · split <;> rfl
  · rfl

/-- capChain on a chain longer than 7 keeps exactly the last 7 entries,
marks the retained head as truncated with the omitted count, and reports
the accumulated length. -/
theorem capChain_spec (c : List ChainEntry) (h : 7 < c.length) :
    ∃ hd tl, c.drop (c.length - 7) = hd :: tl ∧ tl.length = 6 ∧
      capChain c =
        { chain := { hd with truncated := true
                             note := some (noteString (c.length - 7)) } :: tl
          total_length := c.length
          truncated := true } := by
  have hlen : (c.drop (c.length - 7)).length = 7 := by
    rw [List.length_drop]; omega
  obtain ⟨hd, tl, e⟩ : ∃ hd tl, c.drop (c.length - 7) = hd :: tl := by
    cases hdrop : c.drop (c.length - 7) with
    | nil => rw [hdrop] at hlen; simp at hlen
    | cons a b => exact ⟨a, b, rfl⟩
  refine ⟨hd, tl, e, ?_, ?_⟩
  · rw [e] at hlen; simpa using hlen
  · unfold capChain maxChainLength
    rw [if_pos h, e]

/-- Accumulating +k for every element satisfying p is k times the count of
such elements. -/
theorem foldl_if_count {α : Type} (p : α → Bool) (k : Nat) :
    ∀ (l : List α) (a : Nat),
      l.foldl (fun sc x => if p x then sc + k else sc) a = a + k * l.countP p := by
  intro l
  induction l with
  | nil => intro a; simp
  | cons x xs ih =>
    intro a
    rw [List.foldl_cons, List.countP_cons, ih]
    cases h : p x with
    | false => simp [h]
    | true => simp [h, Nat.mul_add, Nat.mul_one]; omega

/-- A successful find splits the list at the first match, and updating through
the found reference rewrites exactly that element. -/
theorem findThought_decomp (l : List Thought) (r : String) (t : Thought)
    (f : Thought → Thought) (h : findThought l r = some t) :
    ∃ pre post, l = pre ++ t :: post ∧ (∀ x ∈ pre, (x.id == r) = false) ∧
      updateFirst (fun x => x.id == r) f l = pre ++ f t :: post := by
  induction l with
  | nil => simp [findThought] at h
  | cons a l ih =>
    cases ha : (a.id == r) with
    | true =>
      rw [findThought, List.find?_cons, ha] at h
      simp only [] at h
      obtain rfl : a = t := by injection h
      exact ⟨[], l, rfl, by simp, by simp [updateFirst, ha]⟩
    | false =>
      rw [findThought, List.find?_cons, ha] at h
      simp only [] at h
      obtain ⟨pre, post, h1, h2, h3⟩ := ih h
      refine ⟨a :: pre, post, by simp [h1], ?_, by simp [updateFirst, ha, h3]⟩
      intro x hx
      rcases List.mem_cons.mp hx with rfl | hx
      · exact ha
      · exact h2 x hx

/-- C4 counterexample: a sweep that deletes the session currently named by the
default pointer. The session record s1.json (last modified at epoch 0, hence
100 days old at now = 100 days) is deleted and counted, yet the default
pointer still names s1 afterwards — the sweep does not cascade into the
delete-time clearing of the default pointer, contradicting the claim. -/
theorem c4_counterexample :
    (cleanupOldSessions ⟨[("s1.json", 0)], some "s1"⟩ (100 * msPerDay) 90).1.files = [] ∧
    (cleanupOldSessions ⟨[("s1.json", 0)], some "s1"⟩ (100 * msPerDay) 90).2 = 1 ∧
    (cleanupOldSessions ⟨[("s1.json", 0)], some "s1"⟩ (100 * msPerDay) 90).1.defaultSessionId
      = some "s1" := by
  refine ⟨by decide, by decide, rfl⟩

/-- C4 (amended): cleanup_sessions never touches the default pointer. Whatever
the sweep deletes — including the session the default pointer names — the
pointer record is shielded from deletion by the filename test and is never
cleared or rewritten by the sweep, so it is left exactly as it was (dangling
if its session was just deleted). -/
theorem c4_amended_default_pointer_unchanged (fs : SweepFS) (now maxAgeDays : Nat) :
    (cleanupOldSessions fs now maxAgeDays).1.defaultSessionId = fs.defaultSessionId := rfl

/-- C5 counterexample: a read failure of an existing record (an EACCES-style
I/O error) and a record holding unparseable data are both answered with the
empty list, indistinguishable from the nonexistent-session case; the error
message is discarded, not surfaced — loadSession's catch block returns []
for every failure, so the claim's "surfaced verbatim" branch does not exist. -/
theorem c5_counterexample :
    loadSession (ReadOutcome.readError "EACCES: permission denied") = [] ∧
    loadSession (ReadOutcome.corrupt "not a JSON thought list") = [] ∧
    loadSession (ReadOutcome.readError "EACCES: permission denied")
      = loadSession ReadOutcome.notFound := by
  refine ⟨rfl, rfl, rfl⟩

/-- C5 (amended): loadSession treats every read failure — a record that does
not exist, an I/O error on an existing record, or a corrupt record — alike:
it returns the empty list and surfaces nothing (its return type has no error
channel at all). -/
theorem c5_amended_all_read_failures_empty (o : ReadOutcome)
    (h : ∀ thoughts, o ≠ ReadOutcome.ok thoughts) : loadSession o = [] := by
  cases o with
  | ok thoughts => exact absurd rfl (h thoughts)
  | notFound => rfl
  | readError msg => rfl
  | corrupt raw => rfl

/-- C5 witness: the amended theorem applied to a concrete read error. -/
theorem c5_witness :
    (∀ thoughts, ReadOutcome.readError "EIO" ≠ ReadOutcome.ok thoughts) ∧
    loadSession (ReadOutcome.readError "EIO") = [] :=
  ⟨fun _ h => ReadOutcome.noConfusion h,
   c5_amended_all_read_failures_empty _ (fun _ h => ReadOutcome.noConfusion h)⟩

/-- C7: buildReasoningChain terminates on every input with at most 20
accumulated entries: the walk consumes one unit of fuel (the remaining
capacity of the 20-entry guard) per entry, so the accumulated chain and the
reported total_length never exceed 20; and on the two-thought relates_to
cycle A → B → A the walk stops at the revisited identifier after exactly the
two entries B, A (oldest first). -/
theorem c7_termination_and_cap :
    (∀ thoughtId thoughts,
      (walkChain thoughts 20 [] thoughtId).length ≤ 20 ∧
      (buildReasoningChain thoughtId thoughts).total_length ≤ 20) ∧
    ((buildReasoningChain "A" cycleThoughts).total_length = 2 ∧
     (buildReasoningChain "A" cycleThoughts).chain.map ChainEntry.id = ["B", "A"]) := by
  refine ⟨fun thoughtId thoughts => ⟨walkChain_length_le _ _ _ _, ?_⟩, by decide, by decide⟩
  rw [buildReasoningChain, capChain_total_length]
  exact walkChain_length_le _ _ _ _

/-- C10 counterexample: view_session invoked with the explicit sessionId ""
(a value the input schema admits) does not return the empty-session success
result for that nonexistent session: the handler's falsiness test treats ""
like an absent argument, falls back to the (unset) default pointer, and
returns the no-session error. -/
theorem c10_counterexample :
    view_session (some "") none (fun _ => ReadOutcome.notFound) = ViewResult.errNoSession ∧
    view_session (some "") none (fun _ => ReadOutcome.notFound)
      ≠ ViewResult.ok "" [] 0 false := by
  refine ⟨rfl, by decide⟩

/-- C10 (amended): view_session called with a nonempty explicit sessionId
never returns an error: it always answers with that session's loaded thought
list and its count (never consulting the default pointer), and in particular
a nonexistent or deleted session yields a success result with an empty list
and count 0. The only error case for missing sessions is an absent (or empty)
sessionId with no default session set. -/
theorem c10_amended_view_never_errors (s : String) (hs : s ≠ "")
    (defaultSessionId : Option String) (store : String → ReadOutcome) :
    view_session (some s) defaultSessionId store
      = ViewResult.ok s (loadSession (store s)) (loadSession (store s)).length false ∧
    (store s = ReadOutcome.notFound →
      view_session (some s) defaultSessionId store = ViewResult.ok s [] 0 false) := by
  have ht : truthyOpt (some s) = true := by simp [truthyOpt, hs]
  constructor
  · rw [view_session, if_pos ht]; rfl
  · intro hmiss
    rw [view_session, if_pos ht]
    simp [hmiss, loadSession]

/-- C10 witness: the amended theorem applied to a concrete nonempty session
identifier whose record does not exist. -/
theorem c10_witness :
    view_session (some "s9") none (fun _ => ReadOutcome.notFound)
      = ViewResult.ok "s9" [] 0 false :=
  (c10_amended_view_never_errors "s9" (by decide) none (fun _ => ReadOutcome.notFound)).2 rfl

/-- C1 counterexample: a think call supplying relationship_type together with
relates_to = "" — a value the input schema admits which names no thought in
the session's current list (and is not the new thought's identifier). The
claim requires the referenced-thought-not-found error and no write; instead
the handler's truthiness guard skips validation entirely, the call returns a
success response, and the thought is appended (the persisted list grows from
1 to 2 entries). -/
theorem c1_counterexample :
    ("" ≠ "tN") ∧
    findThought [exA] "" = none ∧
    (thinkHandler ⟨[exA], false⟩ "w" none none (some "") (some "builds_on") "tN" 9).2
      = ThinkResponse.success "tN" 2 ∧
    (thinkHandler ⟨[exA], false⟩ "w" none none (some "") (some "builds_on") "tN" 9).1.persisted.length
      = 2 := by
  refine ⟨by decide, by decide, by decide, by decide⟩

/-- C1 (amended): for every think call supplying a nonempty relates_to and a
relationship_type, each of the three validation failures returns its
distinguished error before anything is pushed or saved, leaving the world —
in particular the persisted thought list — untouched: self-reference when
relates_to equals the new thought's identifier; referenced-thought-not-found
when relates_to names no thought in the loaded list; future-reference when
the referenced thought's timestamp is strictly after the new thought's. -/
theorem c1_amended_validation_rejects (w : ThinkWorld) (reasoning : String)
    (mode : Option String) (tags : Option (List String)) (r rt newId : String)
    (timestamp : Nat) (hr : r ≠ "") (hrt : rt ≠ "") :
    (r = newId →
      thinkHandler w reasoning mode tags (some r) (some rt) newId timestamp
        = (w, ThinkResponse.err ThinkError.selfReference)) ∧
    (r ≠ newId → findThought w.persisted r = none →
      thinkHandler w reasoning mode tags (some r) (some rt) newId timestamp
        = (w, ThinkResponse.err (ThinkError.notFound r))) ∧
    (∀ t, r ≠ newId → findThought w.persisted r = some t → timestamp < t.timestamp →
      thinkHandler w reasoning mode tags (some r) (some rt) newId timestamp
        = (w, ThinkResponse.err ThinkError.futureReference)) := by
  refine ⟨?_, ?_, ?_⟩
  · intro he
    subst he
    have hcore : thinkCore w.persisted reasoning mode tags (some r) (some rt) r timestamp
        = Except.error ThinkError.selfReference := by
      simp [thinkCore, truthyOpt, hr, hrt]
    simp [thinkHandler, hcore]
  · intro hne hfind
    have hcore : thinkCore w.persisted reasoning mode tags (some r) (some rt) newId timestamp
        = Except.error (ThinkError.notFound r) := by
      simp [thinkCore, truthyOpt, hr, hrt, hne, hfind]
    simp [thinkHandler, hcore]
  · intro t hne hfind hlt
    have hcore : thinkCore w.persisted reasoning mode tags (some r) (some rt) newId timestamp
        = Except.error ThinkError.futureReference := by
      simp [thinkCore, truthyOpt, hr, hrt, hne, hfind, hlt]
    simp [thinkHandler, hcore]

/-- C1 witness: the amended theorem applied to one concrete session for each
of the three validation failures (self-reference, unknown reference, and a
reference to a thought with timestamp 5 from a new thought with timestamp 3). -/
theorem c1_witness :
    (thinkHandler ⟨[exA], false⟩ "w" none none (some "tN") (some "supports") "tN" 9
      = (⟨[exA], false⟩, ThinkResponse.err ThinkError.selfReference)) ∧
    (thinkHandler ⟨[exA], false⟩ "w" none none (some "zzz") (some "supports") "tN" 9
      = (⟨[exA], false⟩, ThinkResponse.err (ThinkError.notFound "zzz"))) ∧
    (thinkHandler ⟨[exA], false⟩ "w" none none (some "A") (some "supports") "tN" 3
      = (⟨[exA], false⟩, ThinkResponse.err ThinkError.futureReference)) :=
  ⟨(c1_amended_validation_rejects ⟨[exA], false⟩ "w" none none "tN" "supports" "tN" 9
      (by decide) (by decide)).1 rfl,
   (c1_amended_validation_rejects ⟨[exA], false⟩ "w" none none "zzz" "supports" "tN" 9
      (by decide) (by decide)).2.1 (by decide) (by decide),
   (c1_amended_validation_rejects ⟨[exA], false⟩ "w" none none "A" "supports" "tN" 3
      (by decide) (by decide)).2.2 exA (by decide) (by decide) (by decide)⟩

/-- C3 counterexample: a think call whose save fails (writeFails models the
underlying fs.writeFile throwing). saveSession's catch block swallows the
failure, and the handler still returns the normal success responseJson with
thoughtCount 1 — while the persisted record is unchanged (still empty). The
caller cannot tell this apart from a durable append. -/
theorem c3_counterexample :
    (thinkHandler ⟨[], true⟩ "step 1" none none none none "t1" 0).2
      = ThinkResponse.success "t1" 1 ∧
    (thinkHandler ⟨[], true⟩ "step 1" none none none none "t1" 0).1.persisted = [] := by
  refine ⟨by decide, by decide⟩

/-- C3 (amended): on the write path a storage failure is silently swallowed:
whenever the think core succeeds but the underlying write fails, the handler
still returns the normal success result (with the new id and the incremented
count), and the persisted thought list is left unchanged. -/
theorem c3_amended_write_failure_swallowed (persisted : List Thought) (reasoning : String)
    (mode : Option String) (tags : Option (List String))
    (relates_to relationship_type : Option String) (thoughtId : String) (timestamp : Nat)
    (thoughts2 : List Thought) (newTh : Thought)
    (hok : thinkCore persisted reasoning mode tags relates_to relationship_type thoughtId timestamp
      = Except.ok (thoughts2, newTh)) :
    thinkHandler ⟨persisted, true⟩ reasoning mode tags relates_to relationship_type thoughtId timestamp
      = (⟨persisted, true⟩, ThinkResponse.success newTh.id thoughts2.length) := by
  simp [thinkHandler, hok, saveSession]

/-- C3 witness: the amended theorem applied to a concrete append into an empty
session with a failing write. -/
theorem c3_witness :
    thinkHandler ⟨[], true⟩ "x" none none none none "t1" 7
      = (⟨[], true⟩, ThinkResponse.success "t1" 1) :=
  c3_amended_write_failure_swallowed [] "x" none none none none "t1" 7
    [⟨"t1", "x", "linear", [], 7, none, none, [], []⟩]
    ⟨"t1", "x", "linear", [], 7, none, none, [], []⟩ rfl

/-- C9: a think call supplying only one of relates_to / relationship_type (or,
more generally, with at least one of them falsy) performs no relationship
validation and records no relationship: the append succeeds, the stored new
thought carries null relates_to and relationship_type and empty
relationships_in / relationships_out, every prior thought is persisted
unchanged, and the response is the normal success with the incremented count. -/
theorem c9_lone_relationship_arg_ignored (persisted : List Thought) (reasoning : String)
    (mode : Option String) (tags : Option (List String))
    (relates_to relationship_type : Option String) (thoughtId : String) (timestamp : Nat)
    (hguard : truthyOpt relates_to = false ∨ truthyOpt relationship_type = false) :
    thinkHandler ⟨persisted, false⟩ reasoning mode tags relates_to relationship_type thoughtId timestamp
      = (⟨persisted ++
            [{ id := thoughtId, content := reasoning, mode := strOrDefault mode "linear"
               tags := tags.getD [], timestamp := timestamp
               relates_to := none, relationship_type := none
               relationships_in := [], relationships_out := [] }], false⟩,
         ThinkResponse.success thoughtId (persisted.length + 1)) := by
  have hg : (truthyOpt relates_to && truthyOpt relationship_type) = false := by
    rcases hguard with h | h <;> simp [h]
  have hcore : thinkCore persisted reasoning mode tags relates_to relationship_type thoughtId timestamp
      = Except.ok (persisted ++
          [{ id := thoughtId, content := reasoning, mode := strOrDefault mode "linear"
             tags := tags.getD [], timestamp := timestamp
             relates_to := none, relationship_type := none
             relationships_in := [], relationships_out := [] }],
          { id := thoughtId, content := reasoning, mode := strOrDefault mode "linear"
            tags := tags.getD [], timestamp := timestamp
            relates_to := none, relationship_type := none
            relationships_in := [], relationships_out := [] }) := by
    simp [thinkCore, hg]
  simp [thinkHandler, hcore, saveSession]

/-- C9 witness: supplying relates_to = "zzz" (which names no thought) without
a relationship_type appends successfully with no validation and no
relationship recorded, leaving the prior thought untouched. -/
theorem c9_witness :
    thinkHandler ⟨[exA], false⟩ "y" none none (some "zzz") none "tN" 9
      = (⟨[exA,
           { id := "tN", content := "y", mode := "linear", tags := [], timestamp := 9
             relates_to := none, relationship_type := none
             relationships_in := [], relationships_out := [] }], false⟩,
         ThinkResponse.success "tN" 2) :=
  c9_lone_relationship_arg_ignored [exA] "y" none none (some "zzz") none "tN" 9
    (Or.inr rfl)

/-- C2: whenever an append succeeds with a (nonempty) relates_to and a
relationship_type that pass validation and the write succeeds, the session
splits around the first thought matching relates_to; afterwards the persisted
list is exactly: the unchanged prefix, the referenced thought with exactly
one entry (new id, relationship_type) appended to its relationships_in, the
unchanged suffix, and the new thought at the end carrying exactly one
relationships_out entry (relates_to, relationship_type) — both changes
persisted by the single save of the same append, whose response reports the
incremented count. -/
theorem c2_relationship_symmetry (w : ThinkWorld) (hw : w.writeFails = false)
    (reasoning : String) (mode : Option String) (tags : Option (List String))
    (r rt newId : String) (timestamp : Nat) (t : Thought)
    (hr : r ≠ "") (hrt : rt ≠ "") (hself : r ≠ newId)
    (hfind : findThought w.persisted r = some t) (hts : t.timestamp ≤ timestamp) :
    ∃ pre post,
      w.persisted = pre ++ t :: post ∧
      (∀ x ∈ pre, (x.id == r) = false) ∧
      (thinkHandler w reasoning mode tags (some r) (some rt) newId timestamp).1.persisted
        = pre ++ ({ t with relationships_in := t.relationships_in ++ [⟨newId, rt⟩] })
            :: post
            ++ [{ id := newId, content := reasoning, mode := strOrDefault mode "linear"
                  tags := tags.getD [], timestamp := timestamp
                  relates_to := some r, relationship_type := some rt
                  relationships_in := [], relationships_out := [⟨r, rt⟩] }] ∧
      (thinkHandler w reasoning mode tags (some r) (some rt) newId timestamp).2
        = ThinkResponse.success newId (w.persisted.length + 1) := by
  obtain ⟨pre, post, hsplit, hpre, hupd⟩ := findThought_decomp w.persisted r t
    (fun x => { x with relationships_in := x.relationships_in ++ [⟨newId, rt⟩] }) hfind
  have hcore : thinkCore w.persisted reasoning mode tags (some r) (some rt) newId timestamp
      = Except.ok
          (updateFirst (fun x => x.id == r)
              (fun x => { x with relationships_in := x.relationships_in ++ [⟨newId, rt⟩] })
              w.persisted
            ++ [{ id := newId, content := reasoning, mode := strOrDefault mode "linear"
                  tags := tags.getD [], timestamp := timestamp
                  relates_to := some r, relationship_type := some rt
                  relationships_in := [], relationships_out := [⟨r, rt⟩] }],
           { id := newId, content := reasoning, mode := strOrDefault mode "linear"
             tags := tags.getD [], timestamp := timestamp
             relates_to := some r, relationship_type := some rt
             relationships_in := [], relationships_out := [⟨r, rt⟩] }) := by
    simp [thinkCore, truthyOpt, hr, hrt, hself, hfind, Nat.not_lt.mpr hts]
  refine ⟨pre, post, hsplit, hpre, ?_, ?_⟩
  · simp [thinkHandler, hcore, saveSession, hw, hupd]
  · simp only [thinkHandler, hcore]
    have hlen : (updateFirst (fun x => x.id == r)
        (fun x => { x with relationships_in := x.relationships_in ++ [⟨newId, rt⟩] })
        w.persisted).length = w.persisted.length := by
      rw [hupd, hsplit]
      simp
    simp [List.length_append, hlen]

/-- C2 witness: the symmetry theorem applied to a concrete append of thought
tN onto the one-thought session [A] with relationship_type builds_on. -/
theorem c2_witness :
    ∃ pre post,
      ([exA] : List Thought) = pre ++ exA :: post ∧
      (∀ x ∈ pre, (x.id == "A") = false) ∧
      (thinkHandler ⟨[exA], false⟩ "y" none none (some "A") (some "builds_on") "tN" 9).1.persisted
        = pre ++ ({ exA with relationships_in := exA.relationships_in ++ [⟨"tN", "builds_on"⟩] })
            :: post
            ++ [{ id := "tN", content := "y", mode := strOrDefault none "linear"
                  tags := (none : Option (List String)).getD [], timestamp := 9
                  relates_to := some "A", relationship_type := some "builds_on"
                  relationships_in := [], relationships_out := [⟨"A", "builds_on"⟩] }] ∧
      (thinkHandler ⟨[exA], false⟩ "y" none none (some "A") (some "builds_on") "tN" 9).2
        = ThinkResponse.success "tN" (([exA] : List Thought).length + 1) :=
  c2_relationship_symmetry ⟨[exA], false⟩ rfl "y" none none "A" "builds_on" "tN" 9 exA
    (by decide) (by decide) (by decide) (by decide) (by decide)

/-- C6: the working-memory cap of buildReasoningChain. Generally: whenever the
accumulated walk exceeds 7 entries, only its most recent 7 are retained
(dropping all but the last 7, in order), the retained head entry is marked
truncated with the note counting the omitted earlier entries, total_length
reports the full accumulated length, and truncated is reported true.
Concretely: the builds_on chain of exactly 10 linked thoughts, started at the
newest linked thought t10, yields total_length 10, truncated true, exactly 7
visible entries in oldest-first order t4..t10, and only the first visible
entry annotated as truncated with an omitted count of 3. -/
theorem c6_chain_cap :
    (∀ thoughtId thoughts, 7 < (walkChain thoughts 20 [] thoughtId).length →
      ∃ hd tl,
        (walkChain thoughts 20 [] thoughtId).drop
            ((walkChain thoughts 20 [] thoughtId).length - 7) = hd :: tl ∧
        tl.length = 6 ∧
        buildReasoningChain thoughtId thoughts =
          { chain := { hd with truncated := true
                               note := some (noteString
                                 ((walkChain thoughts 20 [] thoughtId).length - 7)) } :: tl
            total_length := (walkChain thoughts 20 [] thoughtId).length
            truncated := true }) ∧
    ((buildReasoningChain "t10" chain10).total_length = 10 ∧
     (buildReasoningChain "t10" chain10).truncated = true ∧
     (buildReasoningChain "t10" chain10).chain.length = 7 ∧
     (buildReasoningChain "t10" chain10).chain.map ChainEntry.id
       = ["t4", "t5", "t6", "t7", "t8", "t9", "t10"] ∧
     (buildReasoningChain "t10" chain10).chain.map ChainEntry.truncated
       = [true, false, false, false, false, false, false] ∧
     ((buildReasoningChain "t10" chain10).chain.map ChainEntry.note).head?
       = some (some (noteString 3))) := by
  constructor
  · intro thoughtId thoughts h
    obtain ⟨hd, tl, e, hlen, hcap⟩ := capChain_spec _ h
    exact ⟨hd, tl, e, hlen, hcap⟩
  · refine ⟨by decide, by decide, by decide, by decide, by decide, by decide⟩

/-- C6 witness: the general cap statement applied to the concrete 10-thought
builds_on chain, whose walk accumulates 10 > 7 entries. -/
theorem c6_witness :
    ∃ hd tl,
      (walkChain chain10 20 [] "t10").drop ((walkChain chain10 20 [] "t10").length - 7)
        = hd :: tl ∧
      tl.length = 6 ∧
      buildReasoningChain "t10" chain10 =
        { chain := { hd with truncated := true
                             note := some (noteString
                               ((walkChain chain10 20 [] "t10").length - 7)) } :: tl
          total_length := (walkChain chain10 20 [] "t10").length
          truncated := true } :=
  c6_chain_cap.1 "t10" chain10 (by decide)

/-- C8: for every thought (with the data-model invariants that mode is a
nonempty enumeration value and that relates_to / relationship_type, when
present, are nonempty) and every lowercased query, the lexical relevance
score computed by calculateRelevanceScore equals the specification's sum:
10 if the content contains the full query (case-insensitively), plus 2 per
query word found in the content, plus 5 per tag containing the query, plus 3
if the mode contains the query, plus 1 if the thought carries any
relationship metadata. -/
theorem c8_relevance_score (t : Thought) (queryLower : String)
    (hm : t.mode ≠ "") (h1 : t.relates_to ≠ some "") (h2 : t.relationship_type ≠ some "") :
    calculateRelevanceScore t queryLower = specRelevanceScore t queryLower := by
  have e1 := truthyOpt_eq_isSome t.relates_to h1
  have e2 := truthyOpt_eq_isSome t.relationship_type h2
  have e3 : (t.mode == "") = false := by simp [hm]
  simp only [calculateRelevanceScore, specRelevanceScore, e1, e2, e3, Bool.not_false,
    Bool.true_and]
  rw [foldl_if_count, foldl_if_count]
  split_ifs <;> omega

/-- C8 witness: both scorers agree on a concrete thought and query (both
compute 15: 10 for the full phrase, 2+2 for the words, 1 for the
relationship metadata). -/
theorem c8_witness :
    calculateRelevanceScore
      ⟨"x", "Hello World", "creative", ["greeting"], 0, some "A", some "supports", [], []⟩
      "hello world"
    = specRelevanceScore
      ⟨"x", "Hello World", "creative", ["greeting"], 0, some "A", some "supports", [], []⟩
      "hello world" :=
  c8_relevance_score _ _ (by decide) (by decide) (by decide)

end MinimalThink
